import Mathlib

/-!
Verification of the Crogia control plane (`src/backend/agent_platform.py` and
`src/backend/main.py`) against its natural-language specification.

The Python code is shallowly embedded: the three loosely coupled state stores
(the in-memory `ACTIVE_SESSIONS` table, the persisted `active_sessions.json`
file, and the Docker runtime's set of existing containers) become explicit
fields of a `PlatformState` record, and each session-store operation becomes a
pure state-transformer transcribed line by line from the source.  File and
container I/O are modelled as succeeding; randomly generated identifiers and
clock readings are passed in as parameters.
-/

namespace Crogia

/-- A session record, mirroring the dict built in `create_session`
(`agent_platform.py`, lines 203-211).  The conversation payload is opaque to
the core, so it is modelled as a list of opaque message strings. -/
structure Session where
  session_id : String
  container_id : String
  workdir : String
  created : String
  last_task : String
  conversation_history : List String
  last_activity : Option String
  status : String
deriving DecidableEq, Repr

/-- The session store: an insertion-ordered mapping from session id to
record, as held by the `ACTIVE_SESSIONS` dict and by the JSON file. -/
abbrev Store := List (String × Session)

/-- The three independently mutable sources of truth of the session
subsystem: the in-memory table `ACTIVE_SESSIONS`, the persisted
`SESSIONS_FILE` contents, and the ids of the containers that currently exist
in the Docker runtime. -/
structure PlatformState where
  mem : Store
  disk : Store
  runtime : List String
deriving DecidableEq, Repr

/-- `save_sessions` (`agent_platform.py`, lines 183-188): writes the full
serialization of `ACTIVE_SESSIONS` over the sessions file, wholesale. -/
def save_sessions (st : PlatformState) : PlatformState :=
  { st with disk := st.mem }

/-- `load_sessions` (`agent_platform.py`, lines 163-181): re-reads the
persisted store into memory, drops every session whose container no longer
exists in the runtime, and persists the pruned table with `save_sessions`. -/
def load_sessions (st : PlatformState) : PlatformState :=
  let pruned := st.disk.filter (fun p => st.runtime.contains p.2.container_id)
  save_sessions { st with mem := pruned }

/-- Dict-style insertion used by `ACTIVE_SESSIONS[session_id] = session`:
replace in place if the key exists, otherwise append. -/
def storeInsert (store : Store) (k : String) (v : Session) : Store :=
  if store.any (fun p => p.1 == k) then
    store.map (fun p => if p.1 == k then (k, v) else p)
  else store ++ [(k, v)]

/-- `create_session` (`agent_platform.py`, lines 190-223), success path: the
fresh id, container id, workspace path and timestamp that the code obtains
from uuid, Docker and the clock are parameters.  A new container comes into
existence in the runtime, the record is added to the in-memory table, and the
table is persisted with `save_sessions`. -/
def create_session (st : PlatformState) (sid cid wd task now : String) :
    PlatformState :=
  let s : Session :=
    { session_id := sid, container_id := cid, workdir := wd,
      created := now, last_task := task, conversation_history := [],
      last_activity := none, status := "active" }
  save_sessions { st with runtime := st.runtime ++ [cid],
                          mem := storeInsert st.mem sid s }

/-- `get_session` (`agent_platform.py`, lines 225-240): an unknown id returns
`none`; a known id whose container still exists returns the workdir, the
container handle and the conversation history; a known id whose container is
gone is deleted from the in-memory table, the deletion is written through to
disk by `save_sessions`, and `none` is returned. -/
def get_session (st : PlatformState) (sid : String) :
    PlatformState × Option (String × String × List String) :=
  match st.mem.lookup sid with
  | none => (st, none)
  | some s =>
    if st.runtime.contains s.container_id then
      (st, some (s.workdir, s.container_id, s.conversation_history))
    else
      (save_sessions { st with mem := st.mem.filter (fun p => !(p.1 == sid)) },
       none)

/-- Python truthiness of the optional `last_task` argument: `None` and the
empty string are falsy. -/
def pyTruthyString : Option String → Bool
  | none => false
  | some t => !(t == "")

/-- `update_session_conversation` (`agent_platform.py`, lines 242-249): when
the id is present, the conversation payload is replaced, `last_activity` is
stamped, `last_task` is replaced only when truthy, and the table is persisted;
when the id is absent the function returns without doing anything. -/
def update_session_conversation (st : PlatformState) (sid : String)
    (hist : List String) (lastTask : Option String) (now : String) :
    PlatformState :=
  if (st.mem.lookup sid).isSome then
    let mem := st.mem.map (fun p =>
      if p.1 == sid then
        (p.1, { p.2 with
                  conversation_history := hist,
                  last_activity := some now,
                  last_task :=
                    if pyTruthyString lastTask then lastTask.getD p.2.last_task
                    else p.2.last_task })
      else p)
    save_sessions { st with mem := mem }
  else st

/-- `cleanup_session` (`agent_platform.py`, lines 265-279): when the id is
present, its container is stopped best-effort (stopping does not remove the
container from the runtime's set of existing containers), the record is
deleted and the table persisted; when the id is absent a message is printed
and nothing happens. -/
def cleanup_session (st : PlatformState) (sid : String) : PlatformState :=
  match st.mem.lookup sid with
  | some _ =>
      save_sessions { st with mem := st.mem.filter (fun p => !(p.1 == sid)) }
  | none => st

/-- `list_active_sessions` (`agent_platform.py`, lines 251-263): refreshes
from disk via `load_sessions`, then returns every surviving entry whose
container still exists. -/
def list_active_sessions (st : PlatformState) :
    PlatformState × List (String × Session) :=
  let st1 := load_sessions st
  (st1, st1.mem.filter (fun p => st1.runtime.contains p.2.container_id))

/-- The read-side operations the pruning invariant quantifies over. -/
inductive ReadOp
  | getS (sid : String)
  | listS
deriving DecidableEq, Repr

/-- State effect of one read-side call. -/
def applyReadOp (st : PlatformState) : ReadOp → PlatformState
  | .getS sid => (get_session st sid).1
  | .listS => (list_active_sessions st).1

/-- State effect of a sequence of read-side calls. -/
def applyReadOps (st : PlatformState) (ops : List ReadOp) : PlatformState :=
  ops.foldl applyReadOp st

/-- The session id is recorded neither in memory nor on disk. -/
def sessionAbsent (st : PlatformState) (sid : String) : Prop :=
  st.mem.lookup sid = none ∧ st.disk.lookup sid = none

theorem lookup_eq_none_iff (l : Store) (k : String) :
    l.lookup k = none ↔ ∀ p ∈ l, p.1 ≠ k := by
  induction l with
  | nil => simp [List.lookup]
  | cons hd tl ih =>
    obtain ⟨k', v⟩ := hd
    by_cases h : k = k'
    · subst h
      simp [List.lookup]
    · have hb : (k == k') = false := beq_eq_false_iff_ne.mpr h
      simp only [List.lookup, hb, List.mem_cons]
      rw [ih]
      constructor
      · intro hall p hp
        rcases hp with rfl | hp
        · exact fun e => h e.symm
        · exact hall p hp
      · intro hall p hp
        exact hall p (Or.inr hp)

theorem lookup_filter_none (l : Store) (k : String) (q : String × Session → Bool)
    (h : l.lookup k = none) : (l.filter q).lookup k = none := by
  rw [lookup_eq_none_iff] at h ⊢
  intro p hp
  exact h p (List.mem_of_mem_filter hp)

theorem lookup_filter_self (l : Store) (k : String) :
    (l.filter (fun p => !(p.1 == k))).lookup k = none := by
  rw [lookup_eq_none_iff]
  intro p hp
  have := List.of_mem_filter hp
  simpa using this

theorem absent_applyReadOp (st : PlatformState) (sid : String) (op : ReadOp)
    (h : sessionAbsent st sid) : sessionAbsent (applyReadOp st op) sid := by
  obtain ⟨hm, hd⟩ := h
  cases op with
  | getS x =>
    show sessionAbsent (get_session st x).1 sid
    unfold get_session
    split
    · exact ⟨hm, hd⟩
    · split
      · exact ⟨hm, hd⟩
      · exact ⟨lookup_filter_none _ _ _ hm, lookup_filter_none _ _ _ hm⟩
  | listS =>
    show sessionAbsent (list_active_sessions st).1 sid
    simp only [list_active_sessions, load_sessions, save_sessions]
    exact ⟨lookup_filter_none _ _ _ hd, lookup_filter_none _ _ _ hd⟩

theorem absent_applyReadOps (st : PlatformState) (sid : String)
    (ops : List ReadOp) (h : sessionAbsent st sid) :
    sessionAbsent (applyReadOps st ops) sid := by
  induction ops generalizing st with
  | nil => exact h
  | cons op rest ih => exact ih _ (absent_applyReadOp st sid op h)

theorem get_session_of_absent (st : PlatformState) (sid : String)
    (h : sessionAbsent st sid) : (get_session st sid).2 = none := by
  simp [get_session, h.1]

theorem list_active_sessions_of_absent (st : PlatformState) (sid : String)
    (h : sessionAbsent st sid) :
    sid ∉ ((list_active_sessions st).2.map (fun p => p.1)) := by
  intro hmem
  simp only [list_active_sessions, load_sessions, save_sessions, List.mem_map] at hmem
  obtain ⟨p, hp, hpk⟩ := hmem
  have hp1 := List.mem_of_mem_filter hp
  have hp2 := List.mem_of_mem_filter hp1
  have := (lookup_eq_none_iff _ _).1 h.2 p hp2
  exact this hpk

/-- C1: when a session's bound container no longer exists in the runtime,
`get_session` returns not-found and removes the record from both the
in-memory table and the persisted store, and every subsequent `get_session`
or `list_sessions` call (any interleaving of them) also reports the session
absent. -/
theorem get_session_evicts_dead_sandbox (st : PlatformState) (sid : String)
    (s : Session) (hmem : st.mem.lookup sid = some s)
    (hgone : st.runtime.contains s.container_id = false) :
    (get_session st sid).2 = none ∧
    sessionAbsent (get_session st sid).1 sid ∧
    (∀ ops : List ReadOp,
      (get_session (applyReadOps (get_session st sid).1 ops) sid).2 = none) ∧
    (∀ ops : List ReadOp,
      sid ∉ ((list_active_sessions
        (applyReadOps (get_session st sid).1 ops)).2.map (fun p => p.1))) := by
  have hstep : get_session st sid =
      (save_sessions
        { st with mem := st.mem.filter (fun p => !(p.1 == sid)) }, none) := by
    have hni : s.container_id ∉ st.runtime := by simpa using hgone
    unfold get_session
    rw [hmem]
    simp [hni]
  have habs : sessionAbsent (get_session st sid).1 sid := by
    rw [hstep]
    exact ⟨lookup_filter_self _ _, lookup_filter_self _ _⟩
  refine ⟨by rw [hstep], habs, ?_, ?_⟩
  · intro ops
    exact get_session_of_absent _ _ (absent_applyReadOps _ _ ops habs)
  · intro ops
    exact list_active_sessions_of_absent _ _ (absent_applyReadOps _ _ ops habs)

/-- Concrete session used by the C1 witness. -/
def c1Session : Session :=
  { session_id := "ab", container_id := "c1", workdir := "/w",
    created := "t0", last_task := "demo", conversation_history := [],
    last_activity := none, status := "active" }

/-- Concrete platform state whose one session points at a container that no
longer exists in the runtime. -/
def c1State : PlatformState :=
  { mem := [("ab", c1Session)], disk := [("ab", c1Session)], runtime := [] }

/-- Witness for C1 at a concrete state with a dead container. -/
theorem get_session_evicts_dead_sandbox_witness :
    (get_session c1State "ab").2 = none ∧
    sessionAbsent (get_session c1State "ab").1 "ab" ∧
    (get_session (applyReadOps (get_session c1State "ab").1 [ReadOp.listS])
      "ab").2 = none := by
  have h := get_session_evicts_dead_sandbox c1State "ab" c1Session rfl rfl
  exact ⟨h.1, h.2.1, h.2.2.1 [ReadOp.listS]⟩

/-- The mutating (and lazily reconciling) session-store operations named by
the store-synchronization invariant. -/
inductive SessionOp
  | create (sid cid wd task now : String)
  | get (sid : String)
  | update (sid : String) (hist : List String) (lastTask : Option String)
      (now : String)
  | cleanup (sid : String)
  | load
deriving DecidableEq, Repr

/-- Effect of one session-store operation on the platform state. -/
def applySessionOp (st : PlatformState) : SessionOp → PlatformState
  | .create sid cid wd task now => create_session st sid cid wd task now
  | .get sid => (get_session st sid).1
  | .update sid hist lt now => update_session_conversation st sid hist lt now
  | .cleanup sid => cleanup_session st sid
  | .load => load_sessions st

/-- C2: if the persisted store agrees with the in-memory table, then after any
session-store operation (create, get with its eviction branch, conversation
update, cleanup, or load-time reconciliation) completes, the persisted store
again equals the full serialization of the in-memory table: every mutating
branch ends in `save_sessions`, a wholesale rewrite. -/
theorem session_store_write_through (st : PlatformState) (op : SessionOp)
    (h : st.disk = st.mem) :
    (applySessionOp st op).disk = (applySessionOp st op).mem := by
  cases op with
  | create sid cid wd task now => rfl
  | get sid =>
    show ((get_session st sid).1).disk = ((get_session st sid).1).mem
    unfold get_session
    split
    · exact h
    · split
      · exact h
      · rfl
  | update sid hist lt now =>
    show (update_session_conversation st sid hist lt now).disk =
      (update_session_conversation st sid hist lt now).mem
    unfold update_session_conversation
    split
    · rfl
    · exact h
  | cleanup sid =>
    show (cleanup_session st sid).disk = (cleanup_session st sid).mem
    unfold cleanup_session
    split
    · rfl
    · exact h
  | load => rfl

/-- Witness for C2: the store-synchronization invariant applied to a concrete
in-sync state and a concrete create operation. -/
theorem session_store_write_through_witness :
    (applySessionOp { mem := [], disk := [], runtime := [] }
      (SessionOp.create "ab" "c1" "/w" "demo" "t0")).disk =
    (applySessionOp { mem := [], disk := [], runtime := [] }
      (SessionOp.create "ab" "c1" "/w" "demo" "t0")).mem :=
  session_store_write_through _ _ rfl

/-- A background-process registry record, mirroring the dict appended by
`start_process` (`agent_platform.py`, lines 376-377).  The `ended` key is
absent until `mark_stopped` sets it, hence an `Option`. -/
structure ProcRec where
  pid : Nat
  cmd : String
  log : String
  started : String
  status : String
  ended : Option String
deriving DecidableEq, Repr

/-- `mark_stopped` (`agent_platform.py`, lines 330-335): walks the whole
registry and, at every record whose pid matches — with no check of its
current status — sets the status to stopped and the end timestamp to the
current time, then rewrites the registry file. -/
def mark_stopped (data : List ProcRec) (pid : Nat) (now : String) :
    List ProcRec :=
  data.map (fun p =>
    if p.pid == pid then { p with status := "stopped", ended := some now }
    else p)

/-- `stop_process` (`agent_platform.py`, lines 382-386): sends SIGTERM inside
the container best-effort (`kill -15 pid || true`, never an error) and then
updates the registry; its effect on the registry is exactly `mark_stopped`
at the current time. -/
def stop_process (data : List ProcRec) (pid : Nat) (now : String) :
    List ProcRec :=
  mark_stopped data pid now

/-- An already-stopped record used to refute C3 as stated. -/
def c3Stopped : ProcRec :=
  { pid := 5, cmd := "sleep 100", log := ".agent_logs/a.log",
    started := "t0", status := "stopped", ended := some "t1" }

/-- Counterexample for C3: on a registry holding one already-stopped record
with pid 5 and end timestamp t1, `stop_process 5` at time t2 does not leave
that record unchanged — the code marks every pid-matching record regardless
of status, overwriting the end timestamp of the already-stopped one. -/
theorem stop_process_touches_stopped_records :
    stop_process [c3Stopped] 5 "t2" ≠ [c3Stopped] := by
  intro h
  simp [stop_process, mark_stopped, c3Stopped] at h

/-- C3 (amended): `stop_process` marks every record whose pid matches —
running or already stopped — setting its status to stopped and overwriting
its end timestamp with the stop time while keeping its pid, command, log path
and start timestamp, and it leaves every record with a different pid
unchanged, adding and removing nothing. -/
theorem stop_process_registry_frame (data : List ProcRec) (pid : Nat)
    (now : String) :
    (stop_process data pid now).length = data.length ∧
    ∀ (i : Nat) (p : ProcRec), data[i]? = some p →
      (p.pid = pid → (stop_process data pid now)[i]? =
        some { pid := p.pid, cmd := p.cmd, log := p.log, started := p.started,
               status := "stopped", ended := some now }) ∧
      (p.pid ≠ pid → (stop_process data pid now)[i]? = some p) := by
  refine ⟨by simp [stop_process, mark_stopped], ?_⟩
  intro i p hp
  constructor
  · intro hpid
    cases p
    simp_all [stop_process, mark_stopped, List.getElem?_map]
  · intro hpid
    simp [stop_process, mark_stopped, List.getElem?_map, hp, hpid]

/-- Witness for C3 (amended) at a concrete one-record registry. -/
theorem stop_process_registry_frame_witness :
    (stop_process [c3Stopped] 5 "t2")[0]? =
      some { pid := 5, cmd := "sleep 100", log := ".agent_logs/a.log",
             started := "t0", status := "stopped", ended := some "t2" } := by
  have h := (stop_process_registry_frame [c3Stopped] 5 "t2").2 0 c3Stopped rfl
  exact h.1 rfl

/-- `tail_log` (`agent_platform.py`, lines 388-395): scans the registry in
order and, at the first record whose pid matches, runs tail on that record's
log file and returns the log text; the rest of the registry is never
consulted.  When no record matches it returns the pid-not-tracked error.
Modelled as the log path consulted, with `none` for the error case. -/
def tail_log (regs : List ProcRec) (pid : Nat) : Option String :=
  match regs with
  | [] => none
  | p :: rest => if p.pid == pid then some p.log else tail_log rest pid

/-- C10: when several registry records share a pid, `tail_log` resolves the
log path of the earliest-appended matching record, ignoring all later
matching records, and for a pid with no record at all it returns the
not-tracked error. -/
theorem tail_log_first_match (pid : Nat) :
    (∀ (pre : List ProcRec) (r : ProcRec) (post : List ProcRec),
      (∀ q ∈ pre, q.pid ≠ pid) → r.pid = pid →
      tail_log (pre ++ r :: post) pid = some r.log) ∧
    (∀ regs : List ProcRec, (∀ q ∈ regs, q.pid ≠ pid) →
      tail_log regs pid = none) := by
  constructor
  · intro pre r post hpre hr
    induction pre with
    | nil => simp [tail_log, hr]
    | cons q rest ih =>
      have hq : q.pid ≠ pid := hpre q (List.mem_cons_self q rest)
      have hrest : ∀ x ∈ rest, x.pid ≠ pid :=
        fun x hx => hpre x (List.mem_cons_of_mem q hx)
      simp [tail_log, hq, ih hrest]
  · intro regs hall
    induction regs with
    | nil => rfl
    | cons q rest ih =>
      have hq : q.pid ≠ pid := hall q (List.mem_cons_self q rest)
      have hrest : ∀ x ∈ rest, x.pid ≠ pid :=
        fun x hx => hall x (List.mem_cons_of_mem q hx)
      simp [tail_log, hq, ih hrest]

/-- Second record sharing pid 5, appended after `c3Stopped`. -/
def c10Later : ProcRec :=
  { pid := 5, cmd := "python3 -m http.server", log := ".agent_logs/b.log",
    started := "t3", status := "running", ended := none }

/-- Witness for C10: with two records sharing pid 5, the first record's log
is resolved; pid 9, tracked by no record, yields the not-tracked error. -/
theorem tail_log_first_match_witness :
    tail_log [c3Stopped, c10Later] 5 = some ".agent_logs/a.log" ∧
    tail_log [c3Stopped, c10Later] 9 = none := by
  constructor
  · have h := (tail_log_first_match 5).1 [] c3Stopped [c10Later]
      (by intro q hq; simp at hq) rfl
    exact h
  · have h := (tail_log_first_match 9).2 [c3Stopped, c10Later] (by
      intro q hq
      rcases List.mem_cons.mp hq with rfl | hq
      · simp [c3Stopped]
      · rcases List.mem_cons.mp hq with rfl | hq
        · simp [c10Later]
        · simp at hq)
    exact h

/-- One chunk yielded by the exec-start stream (`agent_platform.py`, lines
294-307): with a TTY the stream yields raw byte strings; without one it
yields demultiplexed (stdout, stderr) pairs whose components may be absent. -/
inductive Chunk
  | mono (txt : String)
  | demux (out err : Option String)
deriving DecidableEq, Repr

/-- Outcome of one command execution at the runtime boundary: the chunks the
stream yields while draining, and the exit code `exec_inspect` reports after
the stream drains. -/
structure ExecOutcome where
  chunks : List Chunk
  exitCode : Int
deriving DecidableEq, Repr

/-- Text a chunk contributes to the `captured` accumulator: a TTY chunk is
appended whole; a demuxed pair contributes its stdout part and then its
stderr part, each skipped when absent or empty (Python truthiness of the
bytes — an absent or empty part contributes nothing). -/
def capturedChunk : Chunk → String
  | .mono t => t
  | .demux out err => out.getD "" ++ err.getD ""

/-- `stream_exec` (`agent_platform.py`, lines 284-310): drains the stream,
echoing every chunk to the console and accumulating it into `captured`, then
reads the exit code with `exec_inspect` and prints it to the console, and
finally returns the concatenation of the captured text — the returned value
is only that string. -/
def stream_exec (o : ExecOutcome) : String :=
  String.join (o.chunks.map capturedChunk)

/-- Counterexample for C4: a run of `exit 3` (same streamed output, exit code
3) and a run exiting 0 give byte-identical results, and that result is just
the captured text — so the value the execution channel returns to its caller
does not contain the numeric exit code, which is only printed to the
console. -/
theorem stream_exec_result_lacks_exit_code :
    stream_exec { chunks := [Chunk.mono "x"], exitCode := 3 } =
      stream_exec { chunks := [Chunk.mono "x"], exitCode := 0 } ∧
    stream_exec { chunks := [Chunk.mono "x"], exitCode := 3 } = "x" := by
  constructor
  · rfl
  · simp [stream_exec, capturedChunk, String.join]

/-- C4 (amended): the execution channel returns to its caller only the
accumulated captured text; the exit code is retrieved after the stream
drains and reported on the console, but the returned result is a function of
the streamed chunks alone, independent of the exit code. -/
theorem stream_exec_returns_text_only (o o' : ExecOutcome)
    (h : o.chunks = o'.chunks) : stream_exec o = stream_exec o' := by
  simp [stream_exec, h]

/-- Witness for C4 (amended): two outcomes differing only in exit code. -/
theorem stream_exec_returns_text_only_witness :
    stream_exec { chunks := [Chunk.mono "hello"], exitCode := 0 } =
      stream_exec { chunks := [Chunk.mono "hello"], exitCode := 3 } :=
  stream_exec_returns_text_only _ _ rfl

/-- The local bridge process of a shell session as `ShellSession.cleanup`
observes it through `poll()`: whether it is still running, and whether it
exits on the graceful signal within the two-second wait. -/
structure BridgeProc where
  alive : Bool
  exitsOnTerm : Bool
deriving DecidableEq, Repr

/-- Signals `cleanup` can send to the bridge's process group. -/
inductive CleanupSignal
  | sigterm
  | sigkill
deriving DecidableEq, Repr

/-- `ShellSession.cleanup` (`main.py`, lines 227-245): when a bridge process
exists and `poll()` reports it still running, send SIGTERM to its process
group, wait up to two seconds, and escalate to SIGKILL on timeout; every
step sits inside exception handlers, so the routine always returns normally.
Returns the process state afterwards and the signals that were sent. -/
def ShellSession.cleanup (proc : Option BridgeProc) :
    Option BridgeProc × List CleanupSignal :=
  match proc with
  | none => (none, [])
  | some p =>
    if p.alive then
      if p.exitsOnTerm then
        (some { p with alive := false }, [CleanupSignal.sigterm])
      else
        (some { p with alive := false },
         [CleanupSignal.sigterm, CleanupSignal.sigkill])
    else (some p, [])

/-- C6: shell cleanup is idempotent: whatever the bridge-process state, after
one `cleanup` call the process is observed terminated (or absent), so a
second call sends no further signals, changes nothing, and returns normally
just like the first. -/
theorem shell_cleanup_idempotent (proc : Option BridgeProc) :
    ShellSession.cleanup (ShellSession.cleanup proc).1 =
      ((ShellSession.cleanup proc).1, []) := by
  cases proc with
  | none => rfl
  | some p =>
    by_cases h : p.alive
    · by_cases h2 : p.exitsOnTerm <;> simp [ShellSession.cleanup, h, h2]
    · simp [ShellSession.cleanup, h]

/-- The three shell-termination paths the specification names. -/
inductive ShellTermPath
  | explicitDelete
  | remoteDisconnect
  | relayLoopError
deriving DecidableEq, Repr

/-- The teardown steps the backend can take for a shell. -/
inductive ShellTermAction
  | shellCleanup
  | removeActiveShell
  | disconnectShell
  | closeMasterFd
deriving DecidableEq, Repr

/-- Teardown steps actually executed on each termination path, transcribed
from `main.py`: `delete_shell_session` (lines 1083-1108) calls
`ShellSession.cleanup`, deletes the `ACTIVE_SHELLS` entry and unregisters
the shell's WebSocket; the `WebSocketDisconnect` handler of
`shell_websocket_endpoint` (lines 1152-1154) only unregisters the WebSocket;
a relay-loop error makes `read_from_shell` break out of its loop and close
the PTY master descriptor in its `finally` block (lines 159-173), after
which `attach_websocket` and the endpoint return with no further teardown. -/
def shellTerminationActions : ShellTermPath → List ShellTermAction
  | .explicitDelete =>
      [ShellTermAction.shellCleanup, ShellTermAction.removeActiveShell,
       ShellTermAction.disconnectShell]
  | .remoteDisconnect => [ShellTermAction.disconnectShell]
  | .relayLoopError => [ShellTermAction.closeMasterFd]

/-- C5: evaluation of the code at the failing inputs: of the three
shell-termination paths only the explicit delete invokes the shared
`ShellSession.cleanup` routine; the remote-disconnect and relay-loop-error
paths never reach it, so the bridge process group is not signalled and the
pseudo-terminal is not torn down by the shared routine on those paths. -/
theorem shell_termination_paths_diverge :
    ShellTermAction.shellCleanup ∈
      shellTerminationActions ShellTermPath.explicitDelete ∧
    ShellTermAction.shellCleanup ∉
      shellTerminationActions ShellTermPath.remoteDisconnect ∧
    ShellTermAction.shellCleanup ∉
      shellTerminationActions ShellTermPath.relayLoopError := by
  refine ⟨?_, ?_, ?_⟩ <;> decide

/-- Empty platform state used by the C7 counterexample. -/
def c7State : PlatformState := { mem := [], disk := [], runtime := [] }

/-- Counterexample for C7: on a session id absent from the store,
`update_session_conversation` and `cleanup_session` return normally with the
state untouched — both Python functions take their else branch and fall
through to `return None`, surfacing nothing — refuting the claim that every
operation looking up an absent id surfaces a NotFound failure rather than
silently succeeding as a no-op. -/
theorem update_and_cleanup_silent_on_absent_id :
    update_session_conversation c7State "zz" ["m"] (some "t") "t9" = c7State ∧
    cleanup_session c7State "zz" = c7State := by
  constructor <;> rfl

/-- C7 (amended): for a session id absent from the in-memory table,
`get_session` does surface not-found (it returns `none`, which the
per-session HTTP endpoints translate into a 404 before touching processes or
files), but the store-level `update_session_conversation` and
`cleanup_session` silently succeed as no-ops, returning normally with the
state unchanged and no failure indication. -/
theorem absent_id_lookup_behavior (st : PlatformState) (sid : String)
    (hist : List String) (lt : Option String) (now : String)
    (h : st.mem.lookup sid = none) :
    (get_session st sid).2 = none ∧
    update_session_conversation st sid hist lt now = st ∧
    cleanup_session st sid = st := by
  refine ⟨?_, ?_, ?_⟩
  · simp [get_session, h]
  · simp [update_session_conversation, h]
  · simp [cleanup_session, h]

/-- Witness for C7 (amended) at the empty store. -/
theorem absent_id_lookup_behavior_witness :
    (get_session c7State "zz").2 = none ∧
    update_session_conversation c7State "zz" ["m"] none "t9" = c7State ∧
    cleanup_session c7State "zz" = c7State :=
  absent_id_lookup_behavior c7State "zz" ["m"] none "t9" rfl

/-- Text cleanup `search_files` applies to every kept line of the find
output: strip surrounding whitespace, delete every occurrence of the
workdir prefix, drop leading slashes. -/
def cleanFilePath (wd line : String) : String :=
  (line.trim.replace wd "").dropWhile (fun c => c == '/')

/-- `search_files` (`agent_platform.py`, lines 426-449), post-processing of
the find output (the command itself already pipes through `head -50`): split
into lines, keep the non-blank ones, clean each, and return at most the
first 50. -/
def search_files_matches (wd execResult : String) : List String :=
  ((((execResult.splitOn "\n").filter (fun l => !(l.trim == "")))).map
    (cleanFilePath wd)).take 50

/-- One parsed grep match, mirroring the dicts built by `grep_search`. -/
structure GrepMatch where
  file : String
  line : Nat
  content : String
deriving DecidableEq, Repr

/-- Python `line.split(":", 2)`: split at the first two colons only. -/
def splitColon2 (line : String) : List String :=
  match line.splitOn ":" with
  | a :: b :: c :: rest => [a, b, String.intercalate ":" (c :: rest)]
  | parts => parts

/-- Per-line parsing of `grep_search` (`agent_platform.py`, lines 464-478):
a line is kept when it contains a colon and is non-blank, unpacks into
exactly file, line number and content at the first two colons, and its line
number parses as a number; otherwise it is skipped without aborting. -/
def parseGrepLine (wd line : String) : Option GrepMatch :=
  if line.contains ':' && !(line.trim == "") then
    match splitColon2 line with
    | [f, ln, content] =>
      match ln.toNat? with
      | some n =>
          some { file := (f.replace wd "").dropWhile (fun c => c == '/'),
                 line := n, content := content.trim }
      | none => none
    | _ => none
  else none

/-- `grep_search` (`agent_platform.py`, lines 451-482), post-processing of
the grep output (the command itself already pipes through `head -20`): parse
each line, keeping the well-formed ones, and return at most the first 20. -/
def grep_search_matches (wd execResult : String) : List GrepMatch :=
  ((execResult.splitOn "\n").filterMap (parseGrepLine wd)).take 20

/-- One raw directory entry as `list_directory` observes it through
`iterdir` and `stat`: name, directory flag, size, modification time, and
whether `stat` succeeds (an inaccessible entry becomes an unknown-typed item
instead of aborting the listing). -/
structure RawEntry where
  name : String
  isDir : Bool
  size : Nat
  mtime : String
  accessible : Bool
deriving DecidableEq, Repr

/-- A listed item, mirroring the dicts built by `list_directory`
(`agent_platform.py`, lines 410-420). -/
structure DirItem where
  name : String
  itemType : String
  size : Option Nat
  modified : Option String
  errNote : Option String
deriving DecidableEq, Repr

/-- The item built for one directory entry. -/
def listItem (e : RawEntry) : DirItem :=
  if e.accessible then
    { name := e.name, itemType := if e.isDir then "directory" else "file",
      size := if e.isDir then none else some e.size,
      modified := some e.mtime, errNote := none }
  else
    { name := e.name, itemType := "unknown", size := none, modified := none,
      errNote := some "access denied" }

/-- The sort key `sorted(items, key=lambda x: (x["type"], x["name"]))` of
`list_directory`: items ordered by type string, then by name. -/
def dirItemLE (a b : DirItem) : Bool :=
  if a.itemType = b.itemType then decide (a.name ≤ b.name)
  else decide (a.itemType < b.itemType)

/-- `list_directory` (`agent_platform.py`, lines 401-424): builds one item
per directory entry and returns all of them sorted by type then name — no
truncation is applied anywhere on this path. -/
def list_directory (entries : List RawEntry) : List DirItem :=
  (entries.map listItem).mergeSort dirItemLE

theorem list_directory_length (entries : List RawEntry) :
    (list_directory entries).length = entries.length := by
  simp [list_directory, List.length_mergeSort]

/-- 51 accessible files, for the C8 counterexample. -/
def c8Entries : List RawEntry :=
  (List.range 51).map (fun i =>
    { name := toString i, isDir := false, size := i, mtime := "t",
      accessible := true })

/-- Counterexample for C8: a directory holding 51 entries is listed with all
51 items — `list_directory` caps nothing, refuting the claimed bound of 50
entries for directory listings. -/
theorem list_directory_uncapped :
    ¬((list_directory c8Entries).length ≤ 50) := by
  have h : (list_directory c8Entries).length = 51 := by
    rw [list_directory_length]
    simp [c8Entries]
  omega

/-- C8 (amended): a file search returns at most 50 matches and a text (grep)
search at most 20 whatever the command output, but a directory listing is
not capped: it returns exactly one item per directory entry, however many
there are. -/
theorem tool_result_caps (wd execResult : String) (entries : List RawEntry) :
    (search_files_matches wd execResult).length ≤ 50 ∧
    (grep_search_matches wd execResult).length ≤ 20 ∧
    (list_directory entries).length = entries.length :=
  ⟨List.length_take_le 50 _, List.length_take_le 20 _,
   list_directory_length entries⟩

/-- A broadcast-subscribed WebSocket connection: an identity plus whether a
send on it currently succeeds (a failing send raises in the Python code). -/
structure Conn where
  cid : Nat
  sendOk : Bool
deriving DecidableEq, Repr

/-- `ConnectionManager.send_message` (`main.py`, lines 280-291): when the
session has a subscriber list, try to send to each connection in order,
collecting those whose send raises into `disconnected`; after the loop,
remove each collected connection from the session's subscriber list (Python
`list.remove`: first occurrence).  Every send attempt is individually
guarded, so the loop never aborts.  Returns the new subscriber map and the
list of connections the message was delivered to, in delivery order. -/
def send_message (active : List (String × List Conn)) (sid : String) :
    List (String × List Conn) × List Conn :=
  match active.lookup sid with
  | none => (active, [])
  | some conns =>
      let delivered := conns.filter (fun c => c.sendOk)
      let disconnected := conns.filter (fun c => !c.sendOk)
      let remaining := disconnected.foldl List.erase conns
      (active.map (fun p => if p.1 == sid then (p.1, remaining) else p),
       delivered)

theorem foldl_erase_cons (x : Conn) (l ds : List Conn)
    (h : ∀ d ∈ ds, d ≠ x) :
    ds.foldl List.erase (x :: l) = x :: ds.foldl List.erase l := by
  induction ds generalizing l with
  | nil => rfl
  | cons d ds ih =>
    have hdx : x ≠ d := (h d (List.mem_cons_self d ds)).symm
    have hrest : ∀ e ∈ ds, e ≠ x := fun e he => h e (List.mem_cons_of_mem d he)
    simp only [List.foldl_cons]
    rw [List.erase_cons_tail (by simpa using hdx)]
    exact ih (l.erase d) hrest

theorem foldl_erase_filter (p : Conn → Bool) (l : List Conn) (h : l.Nodup) :
    (l.filter (fun c => !(p c))).foldl List.erase l = l.filter p := by
  induction l with
  | nil => rfl
  | cons x xs ih =>
    have hx : x ∉ xs := (List.nodup_cons.mp h).1
    have hxs : xs.Nodup := (List.nodup_cons.mp h).2
    by_cases hpx : p x = true
    · have hfil : (x :: xs).filter (fun c => !(p c)) =
          xs.filter (fun c => !(p c)) := by
        simp [List.filter_cons, hpx]
      rw [hfil]
      have hne : ∀ d ∈ xs.filter (fun c => !(p c)), d ≠ x := by
        intro d hd hdx
        exact hx (hdx ▸ List.mem_of_mem_filter hd)
      rw [foldl_erase_cons x xs _ hne, ih hxs]
      simp [List.filter_cons, hpx]
    · have hpx2 : p x = false := by simpa using hpx
      have hfil : (x :: xs).filter (fun c => !(p c)) =
          x :: xs.filter (fun c => !(p c)) := by
        simp [List.filter_cons, hpx2]
      rw [hfil]
      simp only [List.foldl_cons, List.erase_cons_head]
      rw [ih hxs]
      simp [List.filter_cons, hpx2]

/-- C9: for a session with a duplicate-free subscriber list, `send_message`
delivers the message to exactly the subscribers whose send succeeds, in
subscription order — a failing connection neither aborts the broadcast nor
skips the subscribers after it — and afterwards the session's subscriber
list is the original list with exactly the failed connections pruned, all
other sessions' lists untouched, with no error raised (the operation is a
total function). -/
theorem send_message_broadcast (active : List (String × List Conn))
    (sid : String) (conns : List Conn)
    (hlook : active.lookup sid = some conns) (hnd : conns.Nodup) :
    (send_message active sid).2 = conns.filter (fun c => c.sendOk) ∧
    (send_message active sid).1 =
      active.map (fun p =>
        if p.1 == sid then (p.1, conns.filter (fun c => c.sendOk)) else p) := by
  unfold send_message
  rw [hlook]
  dsimp only
  exact ⟨rfl, by rw [foldl_erase_filter (fun c => c.sendOk) conns hnd]⟩

/-- A connection whose send fails, for the C9 witness. -/
def c9Bad : Conn := { cid := 1, sendOk := false }

/-- A connection whose send succeeds, subscribed after the failing one. -/
def c9Good : Conn := { cid := 2, sendOk := true }

/-- Witness for C9: with a failing connection subscribed before a healthy
one, the healthy one still receives the message and only the failing one is
pruned. -/
theorem send_message_broadcast_witness :
    (send_message [("s", [c9Bad, c9Good])] "s").2 = [c9Good] ∧
    (send_message [("s", [c9Bad, c9Good])] "s").1 = [("s", [c9Good])] := by
  have h := send_message_broadcast [("s", [c9Bad, c9Good])] "s"
    [c9Bad, c9Good] rfl (by decide)
  refine ⟨?_, ?_⟩
  · rw [h.1]; rfl
  · rw [h.2]; rfl

end Crogia
